import Mathlib

/-!
Verification of the Trip Sniper offer pipeline
(`src/trip_sniper`: `models.py`, `scoring/features.py`,
`scoring/steal_score.py`, `pipeline.py`).

Conventions of the shallow embedding:
* Python `float` is modelled as `ℚ` (exact real arithmetic).
* `datetime` values are modelled as `Int`: whole seconds since an epoch.
  `DateTime.date()` becomes flooring division by 86400; `timedelta.days`
  becomes `Int.fdiv` of the difference by 86400 (both floor, as in Python).
* A Python `dict` of user preferences is modelled by `UserPrefs`, whose
  fields record the *outcome* of the duck-typed accesses the code performs
  (`float(prefs.get("max_price"))` either raises — `none` — or yields a
  number — `some q`; likewise `int(prefs.get("min_stars"))`, and
  `prefs.get("locations")` is `some` exactly when the value is a
  list/tuple/set).
* Functions that raise are modelled with `Except String`.
-/

namespace TripSniper

/-- Seconds since the epoch, modelling a Python `datetime`. -/
abbrev DateTime := Int

/-- Model of `datetime.date()`: the calendar day containing the instant
(flooring division by the number of seconds in a day). -/
def dateOf (t : DateTime) : Int := Int.fdiv t 86400

/-- The `Offer` dataclass of `models.py` (fields only; the
`__post_init__` validation is `mkOffer` below). `total_duration` is in
minutes, as in the source. -/
structure Offer where
  id : String
  price_per_person : ℚ
  avg_price : ℚ
  hotel_rating : ℚ
  stars : Int
  distance_from_beach : ℚ
  direct : Bool
  total_duration : Int
  date : DateTime
  location : String
  attraction_score : ℚ
  visible_from : DateTime
deriving Repr, DecidableEq

/-- The condition checked by `Offer.__post_init__`: every numeric field
listed as non-negative is non-negative. -/
def Offer.Valid (o : Offer) : Prop :=
  0 ≤ o.price_per_person ∧ 0 ≤ o.avg_price ∧ 0 ≤ o.hotel_rating ∧
  0 ≤ o.stars ∧ 0 ≤ o.distance_from_beach ∧ 0 ≤ o.total_duration ∧
  0 ≤ o.attraction_score

instance (o : Offer) : Decidable o.Valid := by
  unfold Offer.Valid; infer_instance

/-- `Offer.__post_init__` of `models.py`: the dataclass constructor
raises `ValueError` on the first negative numeric field, otherwise the
offer is produced.  The checks appear in source order. -/
def mkOffer (id : String) (price_per_person avg_price hotel_rating : ℚ)
    (stars : Int) (distance_from_beach : ℚ) (direct : Bool)
    (total_duration : Int) (date : DateTime) (location : String)
    (attraction_score : ℚ) (visible_from : DateTime) : Except String Offer :=
  if price_per_person < 0 then .error "price_per_person must be non-negative"
  else if avg_price < 0 then .error "avg_price must be non-negative"
  else if hotel_rating < 0 then .error "hotel_rating must be non-negative"
  else if stars < 0 then .error "stars must be non-negative"
  else if distance_from_beach < 0 then .error "distance_from_beach must be non-negative"
  else if total_duration < 0 then .error "total_duration must be non-negative"
  else if attraction_score < 0 then .error "attraction_score must be non-negative"
  else .ok {
    id := id, price_per_person := price_per_person, avg_price := avg_price,
    hotel_rating := hotel_rating, stars := stars,
    distance_from_beach := distance_from_beach, direct := direct,
    total_duration := total_duration, date := date, location := location,
    attraction_score := attraction_score, visible_from := visible_from }

/-- Re-running the constructor validation on an already-built record:
`Offer(**fields_of(o))`. -/
def mkOfferOf (o : Offer) : Except String Offer :=
  mkOffer o.id o.price_per_person o.avg_price o.hotel_rating o.stars
    o.distance_from_beach o.direct o.total_duration o.date o.location
    o.attraction_score o.visible_from

/-- `_clamp` from `features.py` (same helper is duplicated in
`steal_score.py`): clamp to the inclusive `[0, 100]` range. -/
def clamp (value : ℚ) (min_value : ℚ := 0) (max_value : ℚ := 100) : ℚ :=
  if value < min_value then min_value
  else if value > max_value then max_value
  else value

/-- User-preference dictionary, modelled at the boundary of the
duck-typed accesses performed by `category_match` and `steal_score`. -/
structure UserPrefs where
  locations : Option (List String)
  max_price : Option ℚ
  min_stars : Option Int
deriving Repr, DecidableEq

/-- The empty preference dictionary `{}` (what `user_prefs or {}`
produces when `None` is passed). -/
def emptyPrefs : UserPrefs := ⟨none, none, none⟩

/-- `discount_pct` from `features.py`. -/
def discount_pct (offer : Offer) : ℚ :=
  let avg := offer.avg_price
  if avg ≤ 0 then 0
  else clamp ((avg - offer.price_per_person) / avg * 100)

/-- `absolute_price_score` from `features.py`. -/
def absolute_price_score (offer : Offer) (price_limit : ℚ) : ℚ :=
  if price_limit ≤ 0 then 0
  else clamp ((1 - offer.price_per_person / price_limit) * 100)

/-- `hotel_quality` from `features.py`. -/
def hotel_quality (offer : Offer) : ℚ :=
  let rating_score := clamp (offer.hotel_rating / 10 * 60)
  let star_score := clamp ((offer.stars : ℚ) / 5 * 40)
  clamp (rating_score + star_score)

/-- `flight_comfort` from `features.py`. -/
def flight_comfort (offer : Offer) : ℚ :=
  let duration_factor := max 0 (1 - (offer.total_duration : ℚ) / 720)
  let direct_bonus : ℚ := if offer.direct then 20 else 0
  clamp (duration_factor * 80 + direct_bonus)

/-- `urgency_score` from `features.py`.  `datetime.utcnow()` is the
explicit parameter `now`; `(offer.date - now).days` floors, hence
`Int.fdiv` by 86400. -/
def urgency_score (now : DateTime) (offer : Offer) : ℚ :=
  let days : Int := Int.fdiv (offer.date - now) 86400
  let days : Int := if days < 0 then 0 else days
  clamp ((1 - (min days 30 : Int) / (30 : ℚ)) * 100)

/-- `novelty_score` from `features.py`, with `datetime.utcnow()` as the
explicit parameter `now`; hours elapsed is real-valued. -/
def novelty_score (now : DateTime) (offer : Offer) : ℚ :=
  let hours : ℚ := ((now - offer.visible_from : Int) : ℚ) / 3600
  let hours : ℚ := if hours < 0 then 0 else hours
  clamp ((1 - min hours 24 / 24) * 100)

/-- `category_match` from `features.py`. -/
def category_match (offer : Offer) (user_prefs : UserPrefs) : ℚ :=
  let s1 : ℚ :=
    match user_prefs.locations with
    | some ls => if offer.location ∈ ls then 40 else 0
    | none => 0
  let s2 : ℚ :=
    match user_prefs.max_price with
    | some mp => if mp > 0 then clamp ((1 - offer.price_per_person / mp) * 30) else 0
    | none => 0
  let s3 : ℚ :=
    match user_prefs.min_stars with
    | some ms =>
        if ms > 0 then
          if offer.stars ≥ ms then clamp 30
          else clamp ((offer.stars : ℚ) / (ms : ℚ) * 30)
        else 0
    | none => 0
  clamp (s1 + s2 + s3)

/-! ## Scoring engine (`scoring/steal_score.py`) -/

/-- A weight table: a Python `dict` mapping feature names to weights
(`weights.get(name, 0.0)` is `(w name).getD 0`). -/
abbrev Weights := String → Option ℚ

/-- `DEFAULT_WEIGHTS` from `steal_score.py`. -/
def DEFAULT_WEIGHTS : Weights := fun name =>
  if name = "discount_pct" then some (25/100)
  else if name = "absolute_price_score" then some (20/100)
  else if name = "hotel_quality" then some (20/100)
  else if name = "flight_comfort" then some (15/100)
  else if name = "urgency_score" then some (5/100)
  else if name = "novelty_score" then some (5/100)
  else if name = "category_match" then some (10/100)
  else none

/-- One configuration source for `_load_weights`, modelled at the JSON
boundary: `absent` (environment variable unset or empty), `malformed`
(JSON parse failure, a parsed value that is not a dict, or a value that
`float()` rejects — all of which the code catches or skips, falling
through), or `wellFormed kvs` (a JSON object whose values all convert
to floats; `kvs` keeps the key order, later duplicates winning as in a
Python dict). -/
inductive WeightsSource where
  | absent
  | malformed
  | wellFormed (kvs : List (String × ℚ))
deriving Repr, DecidableEq

/-- `weights.update(...)`: sequential keyed update of a table. -/
def updateWeights (w : Weights) (kvs : List (String × ℚ)) : Weights :=
  kvs.foldl (fun acc kv => fun n => if n = kv.1 then some kv.2 else acc n) w

/-- `_load_weights` from `steal_score.py`: start from a copy of
`DEFAULT_WEIGHTS`; if the inline JSON source (`STEAL_SCORE_WEIGHTS`) is
well formed, merge it in and return; otherwise, if the file source
(`STEAL_SCORE_WEIGHTS_FILE`) is well formed, merge it in and return;
otherwise return the defaults. -/
def load_weights (env file : WeightsSource) : Weights :=
  match env with
  | .wellFormed kvs => updateWeights DEFAULT_WEIGHTS kvs
  | _ =>
    match file with
    | .wellFormed kvs => updateWeights DEFAULT_WEIGHTS kvs
    | _ => DEFAULT_WEIGHTS

/-- The price limit computed at the start of `steal_score`:
`float(user_prefs.get("max_price"))` when that succeeds — with no sign
check — otherwise `offer.avg_price`. -/
def priceLimit (user_prefs : Option UserPrefs) (offer : Offer) : ℚ :=
  match (user_prefs.getD emptyPrefs).max_price with
  | some q => q
  | none => offer.avg_price

/-- The `feature_values` dict built inside `steal_score`, in insertion
order. -/
def featureValues (now : DateTime) (offer : Offer) (user_prefs : Option UserPrefs) :
    List (String × ℚ) :=
  let prefs := user_prefs.getD emptyPrefs
  [("discount_pct", discount_pct offer),
   ("absolute_price_score", absolute_price_score offer (priceLimit user_prefs offer)),
   ("hotel_quality", hotel_quality offer),
   ("flight_comfort", flight_comfort offer),
   ("urgency_score", urgency_score now offer),
   ("novelty_score", novelty_score now offer),
   ("category_match", category_match offer prefs)]

/-- `steal_score` from `steal_score.py`, with the clock (`utcnow`) and
the module-level weight table as explicit parameters. -/
def steal_score (now : DateTime) (offer : Offer)
    (user_prefs : Option UserPrefs) (w : Weights) : ℚ :=
  clamp ((featureValues now offer user_prefs).foldl
    (fun acc fv => acc + fv.2 * (w fv.1).getD 0) 0)

/-- The scoring function as the *claim* words it: identical to
`steal_score` except that the price limit falls back to
`offer.avg_price` whenever `max_price` is not parseable as a *positive*
number.  Used to compare the claimed behaviour with the source. -/
def steal_score_claimed (now : DateTime) (offer : Offer)
    (user_prefs : Option UserPrefs) (w : Weights) : ℚ :=
  let prefs := user_prefs.getD emptyPrefs
  let limit : ℚ :=
    match prefs.max_price with
    | some q => if 0 < q then q else offer.avg_price
    | none => offer.avg_price
  let fvs : List (String × ℚ) :=
    [("discount_pct", discount_pct offer),
     ("absolute_price_score", absolute_price_score offer limit),
     ("hotel_quality", hotel_quality offer),
     ("flight_comfort", flight_comfort offer),
     ("urgency_score", urgency_score now offer),
     ("novelty_score", novelty_score now offer),
     ("category_match", category_match offer prefs)]
  clamp (fvs.foldl (fun acc fv => acc + fv.2 * (w fv.1).getD 0) 0)

/-! ## Combiner (`pipeline.py`, `_combine_offers`) -/

/-- The join condition of `_combine_offers`: same destination and same
calendar date (`flight.date.date() == hotel.date.date()`). -/
def matchesPair (flight hotel : Offer) : Prop :=
  flight.location = hotel.location ∧ dateOf flight.date = dateOf hotel.date

instance (f h : Offer) : Decidable (matchesPair f h) := by
  unfold matchesPair; infer_instance

/-- The combined offer built inside `_combine_offers` for one matching
`(flight, hotel)` pair. -/
def mkCombined (flight hotel : Offer) : Offer :=
  { id := flight.id ++ "-" ++ hotel.id,
    price_per_person := flight.price_per_person + hotel.price_per_person,
    avg_price := flight.avg_price + hotel.avg_price,
    hotel_rating := hotel.hotel_rating,
    stars := hotel.stars,
    distance_from_beach := hotel.distance_from_beach,
    direct := flight.direct,
    total_duration := flight.total_duration,
    date := flight.date,
    location := flight.location,
    attraction_score := max flight.attraction_score hotel.attraction_score,
    visible_from := max flight.visible_from hotel.visible_from }

/-- `_combine_offers` from `pipeline.py`: the nested flights-outer /
hotels-inner loop, appending one combined offer per matching pair. -/
def combine_offers (flights hotels : List Offer) : List Offer :=
  flights.flatMap fun flight =>
    hotels.flatMap fun hotel =>
      if matchesPair flight hotel then [mkCombined flight hotel] else []

/-- The combiner as the spec words it: the ordered cross product of
flights and hotels, restricted to the pairs agreeing on location and
calendar date, each mapped to the combined offer whose fields are
spelled out by the spec. -/
def combineSpec (flights hotels : List Offer) : List Offer :=
  (((flights.flatMap fun f => hotels.map fun h => (f, h)).filter fun p =>
      p.1.location = p.2.location ∧ dateOf p.1.date = dateOf p.2.date)).map
    fun p =>
      { id := p.1.id ++ "-" ++ p.2.id,
        price_per_person := p.1.price_per_person + p.2.price_per_person,
        avg_price := p.1.avg_price + p.2.avg_price,
        hotel_rating := p.2.hotel_rating,
        stars := p.2.stars,
        distance_from_beach := p.2.distance_from_beach,
        direct := p.1.direct,
        total_duration := p.1.total_duration,
        date := p.1.date,
        location := p.1.location,
        attraction_score := max p.1.attraction_score p.2.attraction_score,
        visible_from := max p.1.visible_from p.2.visible_from }

/-! ## Persistence (`pipeline.py`, `_upsert_offer`) -/

/-- A persisted `OfferRecord` row: the offer's fields plus the score. -/
structure OfferRecord where
  id : String
  price_per_person : ℚ
  avg_price : ℚ
  hotel_rating : ℚ
  stars : Int
  distance_from_beach : ℚ
  direct : Bool
  total_duration : Int
  date : DateTime
  location : String
  attraction_score : ℚ
  visible_from : DateTime
  steal_score : ℚ
deriving Repr, DecidableEq

/-- The field-by-field copy performed by both branches of
`_upsert_offer`. -/
def recordOf (offer : Offer) (score : ℚ) : OfferRecord :=
  { id := offer.id, price_per_person := offer.price_per_person,
    avg_price := offer.avg_price, hotel_rating := offer.hotel_rating,
    stars := offer.stars, distance_from_beach := offer.distance_from_beach,
    direct := offer.direct, total_duration := offer.total_duration,
    date := offer.date, location := offer.location,
    attraction_score := offer.attraction_score,
    visible_from := offer.visible_from, steal_score := score }

/-- The persistence store: a table keyed by the primary key `id`
(`session.get(OfferRecord, offer.id)` is key lookup). -/
abbrev Store := String → Option OfferRecord

/-- `_upsert_offer` from `pipeline.py`: if no record with the offer's id
exists, insert a new record with all fields and the score; otherwise
overwrite all fields and the score in place. -/
def upsert_offer (store : Store) (offer : Offer) (score : ℚ) : Store :=
  match store offer.id with
  | none =>
      fun key => if key = offer.id then some (recordOf offer score) else store key
  | some _ =>
      fun key => if key = offer.id then some (recordOf offer score) else store key

/-- One pipeline pass of upserts over a batch of scored offers, in
order. -/
def upsertAll (store : Store) (batch : List (Offer × ℚ)) : Store :=
  batch.foldl (fun st p => upsert_offer st p.1 p.2) store

/-- The last record a batch of upserts writes under a given key, if
any (later writes win, as in sequential upserts). -/
def writeOf : List (Offer × ℚ) → String → Option OfferRecord
  | [], _ => none
  | p :: b, key =>
    match writeOf b key with
    | some r => some r
    | none => if key = p.1.id then some (recordOf p.1 p.2) else none

/-! ## Pipeline orchestrator (`pipeline.py`, `run_pipeline`)

The external fetchers are parameters: a fetcher takes a destination and
a date string and either returns a list of offers or raises
(`AmadeusFlightFetcher.fetch_offers` re-raises `RuntimeError` once its
three attempts are exhausted).  The database session is the `Store`;
an uncaught exception aborts the run before `session.commit()`, so an
aborted run is `Except.error` and persists nothing. -/

/-- `itertools.zip_longest` over the two destination lists, with `None`
(here `none`) as the fill value. -/
def zipLongest : List String → List String → List (Option String × Option String)
  | [], bs => bs.map fun b => (none, some b)
  | a :: as, [] => (some a, none) :: zipLongest as []
  | a :: as, b :: bs => (some a, some b) :: zipLongest as bs

/-- The guard `if not airport or not city_id: continue` on one zipped
pair: the pair is processed exactly when both components are present
and truthy (a non-empty string). -/
def pairTaken : Option String × Option String → Option (String × String)
  | (some a, some c) => if a ≠ "" ∧ c ≠ "" then some (a, c) else none
  | _ => none

/-- The destination pairs that survive the `zip_longest` loop's skip
guard, in order (`pipeline.py` lines 171-174). -/
def processedPairs (flight_destinations hotel_destinations : List String) :
    List (String × String) :=
  (zipLongest flight_destinations hotel_destinations).filterMap pairTaken

/-- The per-offer tail of the loop body: skip the offer when
`visible_from` is in the future, otherwise score it (no user
preferences) and upsert it. -/
def processOffer (now : DateTime) (w : Weights) (store : Store) (offer : Offer) : Store :=
  if offer.visible_from > now then store
  else upsert_offer store offer (steal_score now offer none w)

/-- A fetcher at the orchestrator boundary: returns offers or raises. -/
abbrev Fetcher := String → String → Except String (List Offer)

/-- The body of `run_pipeline` for one complete `(airport, city_id)`
pair, iterating over the dates (sequential mode): fetch flights, then —
when a hotel fetcher is configured — fetch hotels, re-tag their
location to the airport and combine; filter by visibility, score and
upsert.  A fetcher exception propagates. -/
def processPair (fetchFlights : Fetcher) (fetchHotels : Option Fetcher)
    (dates : List String) (now : DateTime) (w : Weights)
    (store : Store) (airport city_id : String) : Except String Store :=
  dates.foldlM (fun st date => do
    let flights ← fetchFlights airport date
    let offers ←
      match fetchHotels with
      | none => pure flights
      | some fh => do
          let hotels ← fh city_id date
          let hotels := hotels.map fun h => { h with location := airport }
          pure (combine_offers flights hotels)
    pure (offers.foldl (processOffer now w) st)) store

/-- `run_pipeline` from `pipeline.py` (sequential fetch mode): loop over
the zipped destination pairs, skipping incomplete or falsy pairs, and
process each date for each remaining pair.  `fetchHotels = none` is the
`flights_only` / hotels-disabled configuration, in which flight offers
pass through unjoined.  An uncaught fetcher exception aborts the whole
run (no commit). -/
def run_pipeline (fetchFlights : Fetcher) (fetchHotels : Option Fetcher)
    (flight_destinations hotel_destinations dates : List String)
    (now : DateTime) (w : Weights) (store : Store) : Except String Store :=
  (zipLongest flight_destinations hotel_destinations).foldlM
    (fun st pr =>
      match pairTaken pr with
      | some ac => processPair fetchFlights fetchHotels dates now w st ac.1 ac.2
      | none => pure st)
    store

/-- Retry skeleton of `AmadeusFlightFetcher.fetch_offers`: three
attempts, each either succeeding with data or failing; the first
success is returned, and if all three attempts fail the `RuntimeError`
is raised to the caller. -/
def amadeusFetch (attempts : Fin 3 → Except String (List Offer)) :
    Except String (List Offer) :=
  match attempts 0 with
  | .ok offers => .ok offers
  | .error _ =>
    match attempts 1 with
    | .ok offers => .ok offers
    | .error _ =>
      match attempts 2 with
      | .ok offers => .ok offers
      | .error _ => .error "Failed to fetch data from Amadeus API"

/-! ## Concrete example data used by witnesses and counterexamples -/

/-- A pathological but validly constructed offer: `total_duration =
100000` minutes, `hotel_rating = 999`. -/
def pathologicalOffer : Offer :=
  { id := "X", price_per_person := 5, avg_price := 1000000,
    hotel_rating := 999, stars := 50, distance_from_beach := 0,
    direct := true, total_duration := 100000, date := 0,
    location := "PAR", attraction_score := 0, visible_from := 0 }

/-- An offer whose only flaw is `price_per_person = -1`. -/
def negOffer : Offer :=
  { id := "N", price_per_person := -1, avg_price := 100, hotel_rating := 5,
    stars := 4, distance_from_beach := 1, direct := true,
    total_duration := 120, date := 0, location := "PAR",
    attraction_score := 0, visible_from := 0 }

/-- A concrete valid flight offer. -/
def cFlight : Offer :=
  { id := "F1", price_per_person := 300, avg_price := 400, hotel_rating := 0,
    stars := 0, distance_from_beach := 0, direct := true,
    total_duration := 360, date := 86400, location := "PAR",
    attraction_score := 0, visible_from := 0 }

/-- A concrete valid hotel offer matching `cFlight` on location and
calendar date. -/
def cHotel : Offer :=
  { id := "H1", price_per_person := 200, avg_price := 250, hotel_rating := 8,
    stars := 4, distance_from_beach := 1, direct := true,
    total_duration := 0, date := 86400 + 7200, location := "PAR",
    attraction_score := 3, visible_from := 3600 }

/-- A preference dictionary whose `max_price` parses to a negative
number (`float("-50")` succeeds in Python). -/
def negPricePrefs : UserPrefs := ⟨none, some (-50), none⟩

/-- A concrete offer used to evaluate the scoring function: 20%
discount, indirect 12-hour flight, no hotel attributes. -/
def discOffer : Offer :=
  { id := "F", price_per_person := 80, avg_price := 100, hotel_rating := 0,
    stars := 0, distance_from_beach := 0, direct := false,
    total_duration := 720, date := 0, location := "PAR",
    attraction_score := 0, visible_from := 0 }

/-- `discOffer` departing on day 200 and visible since the epoch: its
urgency and novelty depend on when the clock is read. -/
def clockOffer : Offer :=
  { id := "F", price_per_person := 80, avg_price := 100, hotel_rating := 0,
    stars := 0, distance_from_beach := 0, direct := false,
    total_duration := 720, date := 17280000, location := "PAR",
    attraction_score := 0, visible_from := 0 }

/-- An offer departing 30 days and 2 hours after the epoch, published
long before it: both clock readings 0 and 3600 see the same urgency
and novelty buckets. -/
def lateOffer : Offer :=
  { id := "F", price_per_person := 80, avg_price := 100, hotel_rating := 0,
    stars := 0, distance_from_beach := 0, direct := false,
    total_duration := 720, date := 2599200, location := "PAR",
    attraction_score := 0, visible_from := -200000 }

/-- A concrete valid flight offer, eligible for display at time 1000. -/
def fetchedFlight : Offer :=
  { id := "FL", price_per_person := 100, avg_price := 150, hotel_rating := 0,
    stars := 0, distance_from_beach := 0, direct := true,
    total_duration := 120, date := 86400, location := "BBB",
    attraction_score := 0, visible_from := 0 }

/-- A flight fetcher whose retries are exhausted for destination
`"AAA"` (it raises the Amadeus `RuntimeError`) and which succeeds for
every other destination. -/
def failAAAFetcher : Fetcher := fun dest _ =>
  if dest = "AAA" then .error "Failed to fetch data from Amadeus API"
  else .ok [fetchedFlight]

/-! ## Helper lemmas -/

theorem clamp_mem (v : ℚ) : 0 ≤ clamp v ∧ clamp v ≤ 100 := by
  unfold clamp
  split_ifs with h1 h2
  · exact ⟨le_refl 0, by norm_num⟩
  · exact ⟨by norm_num, le_refl 100⟩
  · exact ⟨not_lt.mp h1, not_lt.mp h2⟩

theorem clamp_le_of_le {v c : ℚ} (h : v ≤ c) (hc : 0 ≤ c) : clamp v ≤ c := by
  unfold clamp
  split_ifs with h1 h2
  · exact hc
  · linarith
  · exact h

theorem discount_pct_mem (o : Offer) : 0 ≤ discount_pct o ∧ discount_pct o ≤ 100 := by
  by_cases h : o.avg_price ≤ 0
  · simp [discount_pct, h]
  · simpa [discount_pct, h] using
      clamp_mem ((o.avg_price - o.price_per_person) / o.avg_price * 100)

theorem absolute_price_score_mem (o : Offer) (limit : ℚ) :
    0 ≤ absolute_price_score o limit ∧ absolute_price_score o limit ≤ 100 := by
  by_cases h : limit ≤ 0
  · simp [absolute_price_score, h]
  · simpa [absolute_price_score, h] using
      clamp_mem ((1 - o.price_per_person / limit) * 100)

theorem hotel_quality_mem (o : Offer) : 0 ≤ hotel_quality o ∧ hotel_quality o ≤ 100 :=
  clamp_mem _

theorem flight_comfort_mem (o : Offer) : 0 ≤ flight_comfort o ∧ flight_comfort o ≤ 100 :=
  clamp_mem _

theorem urgency_score_mem (now : DateTime) (o : Offer) :
    0 ≤ urgency_score now o ∧ urgency_score now o ≤ 100 :=
  clamp_mem _

theorem novelty_score_mem (now : DateTime) (o : Offer) :
    0 ≤ novelty_score now o ∧ novelty_score now o ≤ 100 :=
  clamp_mem _

theorem category_match_mem (o : Offer) (p : UserPrefs) :
    0 ≤ category_match o p ∧ category_match o p ≤ 100 :=
  clamp_mem _

/-! ## C3: every feature function is clamped to [0, 100] -/

/-- C3: for every validly constructed Offer (and any preferences, price
limit and clock reading), each of the seven feature functions of
`features.py` returns a value in the inclusive range `[0, 100]`,
regardless of input magnitude. -/
theorem feature_values_bounded (now : DateTime) (o : Offer) (p : UserPrefs)
    (limit : ℚ) (_hv : o.Valid) :
    (0 ≤ discount_pct o ∧ discount_pct o ≤ 100) ∧
    (0 ≤ absolute_price_score o limit ∧ absolute_price_score o limit ≤ 100) ∧
    (0 ≤ hotel_quality o ∧ hotel_quality o ≤ 100) ∧
    (0 ≤ flight_comfort o ∧ flight_comfort o ≤ 100) ∧
    (0 ≤ urgency_score now o ∧ urgency_score now o ≤ 100) ∧
    (0 ≤ novelty_score now o ∧ novelty_score now o ≤ 100) ∧
    (0 ≤ category_match o p ∧ category_match o p ≤ 100) :=
  ⟨discount_pct_mem o, absolute_price_score_mem o limit, hotel_quality_mem o,
   flight_comfort_mem o, urgency_score_mem now o, novelty_score_mem now o,
   category_match_mem o p⟩

/-- Witness for C3 at the pathological offer named by the spec. -/
theorem feature_values_bounded_witness :
    pathologicalOffer.Valid ∧
    ((0 ≤ discount_pct pathologicalOffer ∧ discount_pct pathologicalOffer ≤ 100) ∧
     (0 ≤ absolute_price_score pathologicalOffer (-3) ∧
        absolute_price_score pathologicalOffer (-3) ≤ 100) ∧
     (0 ≤ hotel_quality pathologicalOffer ∧ hotel_quality pathologicalOffer ≤ 100) ∧
     (0 ≤ flight_comfort pathologicalOffer ∧ flight_comfort pathologicalOffer ≤ 100) ∧
     (0 ≤ urgency_score 0 pathologicalOffer ∧ urgency_score 0 pathologicalOffer ≤ 100) ∧
     (0 ≤ novelty_score 0 pathologicalOffer ∧ novelty_score 0 pathologicalOffer ≤ 100) ∧
     (0 ≤ category_match pathologicalOffer emptyPrefs ∧
        category_match pathologicalOffer emptyPrefs ≤ 100)) :=
  ⟨by decide, feature_values_bounded 0 pathologicalOffer emptyPrefs (-3) (by decide)⟩

/-! ## C7: constructor validation -/

theorem mkOfferOf_isOk_iff (o : Offer) : (mkOfferOf o).isOk = true ↔ o.Valid := by
  unfold mkOfferOf mkOffer
  split_ifs with h1 h2 h3 h4 h5 h6 h7
  · simp only [Except.isOk, Except.toBool, Bool.false_eq_true, false_iff]
    exact fun hv => absurd hv.1 (not_le.mpr h1)
  · simp only [Except.isOk, Except.toBool, Bool.false_eq_true, false_iff]
    exact fun hv => absurd hv.2.1 (not_le.mpr h2)
  · simp only [Except.isOk, Except.toBool, Bool.false_eq_true, false_iff]
    exact fun hv => absurd hv.2.2.1 (not_le.mpr h3)
  · simp only [Except.isOk, Except.toBool, Bool.false_eq_true, false_iff]
    exact fun hv => absurd hv.2.2.2.1 (not_le.mpr h4)
  · simp only [Except.isOk, Except.toBool, Bool.false_eq_true, false_iff]
    exact fun hv => absurd hv.2.2.2.2.1 (not_le.mpr h5)
  · simp only [Except.isOk, Except.toBool, Bool.false_eq_true, false_iff]
    exact fun hv => absurd hv.2.2.2.2.2.1 (not_le.mpr h6)
  · simp only [Except.isOk, Except.toBool, Bool.false_eq_true, false_iff]
    exact fun hv => absurd hv.2.2.2.2.2.2 (not_le.mpr h7)
  · simp only [Except.isOk, Except.toBool, true_iff]
    exact ⟨not_lt.mp h1, not_lt.mp h2, not_lt.mp h3, not_lt.mp h4,
           not_lt.mp h5, not_lt.mp h6, not_lt.mp h7⟩

/-- C7: `Offer` construction succeeds exactly when all seven listed
numeric fields are non-negative, and the validation also holds for
every offer synthesized by the combiner from valid constituents. -/
theorem offer_validation (o : Offer) :
    ((mkOfferOf o).isOk = true ↔ o.Valid) ∧
    (∀ f h : Offer, f.Valid → h.Valid →
      (mkOfferOf (mkCombined f h)).isOk = true) := by
  refine ⟨mkOfferOf_isOk_iff o, fun f h hf hh => ?_⟩
  rw [mkOfferOf_isOk_iff]
  obtain ⟨f1, f2, _f3, _f4, _f5, f6, f7⟩ := hf
  obtain ⟨g1, g2, g3, g4, g5, _g6, _g7⟩ := hh
  exact ⟨add_nonneg f1 g1, add_nonneg f2 g2, g3, g4, g5, f6,
         le_max_of_le_left f7⟩

/-- Witness for C7 at concrete offers, including a combined one. -/
theorem offer_validation_witness :
    cFlight.Valid ∧ cHotel.Valid ∧
    (mkOfferOf (mkCombined cFlight cHotel)).isOk = true ∧
    (mkOfferOf negOffer).isOk = false :=
  ⟨by decide, by decide,
   (offer_validation cFlight).2 cFlight cHotel (by decide) (by decide),
   by decide⟩

/-! ## C10: global (un-personalized) score is at most 90 -/

theorem category_match_empty (o : Offer) : category_match o emptyPrefs = 0 := by
  unfold category_match emptyPrefs
  norm_num [clamp]

/-- C10: when `steal_score` is called with no user preferences (as
`run_pipeline` does), `category_match` returns 0, so under the default
weight table the score is at most 90. -/
theorem steal_score_no_prefs_le_90 (now : DateTime) (o : Offer) :
    category_match o emptyPrefs = 0 ∧
    steal_score now o none DEFAULT_WEIGHTS ≤ 90 := by
  refine ⟨category_match_empty o, ?_⟩
  obtain ⟨d0, d1⟩ := discount_pct_mem o
  obtain ⟨a0, a1⟩ := absolute_price_score_mem o (priceLimit none o)
  obtain ⟨q0, q1⟩ := hotel_quality_mem o
  obtain ⟨f0, f1⟩ := flight_comfort_mem o
  obtain ⟨u0, u1⟩ := urgency_score_mem now o
  obtain ⟨n0, n1⟩ := novelty_score_mem now o
  have w1 : ((DEFAULT_WEIGHTS "discount_pct").getD 0) = 25/100 := by rfl
  have w2 : ((DEFAULT_WEIGHTS "absolute_price_score").getD 0) = 20/100 := by rfl
  have w3 : ((DEFAULT_WEIGHTS "hotel_quality").getD 0) = 20/100 := by rfl
  have w4 : ((DEFAULT_WEIGHTS "flight_comfort").getD 0) = 15/100 := by rfl
  have w5 : ((DEFAULT_WEIGHTS "urgency_score").getD 0) = 5/100 := by rfl
  have w6 : ((DEFAULT_WEIGHTS "novelty_score").getD 0) = 5/100 := by rfl
  have w7 : ((DEFAULT_WEIGHTS "category_match").getD 0) = 10/100 := by rfl
  unfold steal_score featureValues
  simp only [List.foldl_cons, List.foldl_nil, Option.getD_none,
    category_match_empty, w1, w2, w3, w4, w5, w6, w7]
  apply clamp_le_of_le _ (by norm_num)
  linarith


/-! ## Weight lookups under the default table -/

theorem wd1 : ((DEFAULT_WEIGHTS "discount_pct").getD 0) = 25/100 := by rfl

theorem wd2 : ((DEFAULT_WEIGHTS "absolute_price_score").getD 0) = 20/100 := by rfl

theorem wd3 : ((DEFAULT_WEIGHTS "hotel_quality").getD 0) = 20/100 := by rfl

theorem wd4 : ((DEFAULT_WEIGHTS "flight_comfort").getD 0) = 15/100 := by rfl

theorem wd5 : ((DEFAULT_WEIGHTS "urgency_score").getD 0) = 5/100 := by rfl

theorem wd6 : ((DEFAULT_WEIGHTS "novelty_score").getD 0) = 5/100 := by rfl

theorem wd7 : ((DEFAULT_WEIGHTS "category_match").getD 0) = 10/100 := by rfl

/-! ## C2: the price limit and the weighted sum -/

/-- C2 counterexample: with `max_price` parseable but *negative*
(`-50`), `steal_score` does **not** fall back to `offer.avg_price`: it
uses `-50` as the price limit (so `absolute_price_score` contributes
0), and the returned score (15) differs from the score the claim
describes (19, computed by `steal_score_claimed`, which falls back to
`avg_price = 100`). -/
theorem steal_score_price_limit_counterexample :
    priceLimit (some negPricePrefs) discOffer = -50 ∧
    steal_score 0 discOffer (some negPricePrefs) DEFAULT_WEIGHTS = 15 ∧
    steal_score_claimed 0 discOffer (some negPricePrefs) DEFAULT_WEIGHTS = 19 ∧
    steal_score 0 discOffer (some negPricePrefs) DEFAULT_WEIGHTS ≠
      steal_score_claimed 0 discOffer (some negPricePrefs) DEFAULT_WEIGHTS := by
  have h1 : priceLimit (some negPricePrefs) discOffer = -50 := by rfl
  have h2 : steal_score 0 discOffer (some negPricePrefs) DEFAULT_WEIGHTS = 15 := by
    unfold steal_score featureValues
    simp only [List.foldl_cons, List.foldl_nil, Option.getD_some,
      wd1, wd2, wd3, wd4, wd5, wd6, wd7]
    norm_num [discOffer, negPricePrefs, priceLimit, emptyPrefs,
      discount_pct, absolute_price_score, hotel_quality, flight_comfort,
      urgency_score, novelty_score, category_match, clamp, Int.fdiv]
  have h3 : steal_score_claimed 0 discOffer (some negPricePrefs)
      DEFAULT_WEIGHTS = 19 := by
    unfold steal_score_claimed
    simp only [List.foldl_cons, List.foldl_nil, Option.getD_some,
      wd1, wd2, wd3, wd4, wd5, wd6, wd7]
    norm_num [discOffer, negPricePrefs, emptyPrefs,
      discount_pct, absolute_price_score, hotel_quality, flight_comfort,
      urgency_score, novelty_score, category_match, clamp, Int.fdiv]
  refine ⟨h1, h2, h3, ?_⟩
  rw [h2, h3]; norm_num

/-- C2 (amended): `steal_score` equals the clamp to `[0, 100]` of the
weighted sum of the seven features, a feature missing from the weight
table contributing 0, where the price limit is `max_price` whenever
that value parses to a number — of any sign — and `offer.avg_price`
only when it is absent or unparseable. -/
theorem steal_score_weighted_sum (now : DateTime) (o : Offer)
    (p : Option UserPrefs) (w : Weights) :
    steal_score now o p w =
      clamp (discount_pct o * (w "discount_pct").getD 0 +
        absolute_price_score o (priceLimit p o) * (w "absolute_price_score").getD 0 +
        hotel_quality o * (w "hotel_quality").getD 0 +
        flight_comfort o * (w "flight_comfort").getD 0 +
        urgency_score now o * (w "urgency_score").getD 0 +
        novelty_score now o * (w "novelty_score").getD 0 +
        category_match o (p.getD emptyPrefs) * (w "category_match").getD 0) ∧
    priceLimit p o = ((p.getD emptyPrefs).max_price).getD o.avg_price := by
  constructor
  · unfold steal_score featureValues
    simp only [List.foldl_cons, List.foldl_nil]
    congr 1
    ring
  · unfold priceLimit
    cases (p.getD emptyPrefs).max_price <;> rfl

/-! ## C4: dependence on the clock -/

/-- C4 counterexample: two calls to `steal_score` with the *same*
offer, the same (absent) user preferences and the same default weight
table return different values when the clock (`datetime.utcnow()`,
read inside `urgency_score` and `novelty_score`) differs: 14 at time
17280000 (departure day) versus 9 at time 8640000 (100 days before
departure). -/
theorem steal_score_clock_counterexample :
    steal_score 17280000 clockOffer none DEFAULT_WEIGHTS = 14 ∧
    steal_score 8640000 clockOffer none DEFAULT_WEIGHTS = 9 ∧
    steal_score 17280000 clockOffer none DEFAULT_WEIGHTS ≠
      steal_score 8640000 clockOffer none DEFAULT_WEIGHTS := by
  have h1 : steal_score 17280000 clockOffer none DEFAULT_WEIGHTS = 14 := by
    unfold steal_score featureValues
    simp only [List.foldl_cons, List.foldl_nil, Option.getD_none,
      wd1, wd2, wd3, wd4, wd5, wd6, wd7]
    norm_num [clockOffer, priceLimit, emptyPrefs,
      discount_pct, absolute_price_score, hotel_quality, flight_comfort,
      urgency_score, novelty_score, category_match, clamp, Int.fdiv]
  have h2 : steal_score 8640000 clockOffer none DEFAULT_WEIGHTS = 9 := by
    have hd : Int.fdiv ((17280000 : Int) - 8640000) 86400 = 100 := by decide
    have hu : urgency_score 8640000 clockOffer = 0 := by
      unfold urgency_score
      simp only [clockOffer, hd]
      norm_num [clamp]
    have hn : novelty_score 8640000 clockOffer = 0 := by
      unfold novelty_score
      simp only [clockOffer]
      norm_num [clamp]
    unfold steal_score featureValues
    simp only [List.foldl_cons, List.foldl_nil, Option.getD_none,
      wd1, wd2, wd3, wd4, wd5, wd6, wd7, hu, hn]
    norm_num [clockOffer, priceLimit, emptyPrefs, discount_pct,
      absolute_price_score, hotel_quality, flight_comfort, category_match,
      clamp]
  refine ⟨h1, h2, ?_⟩
  rw [h1, h2]; norm_num

/-- C4 (amended): `steal_score` is deterministic given identical
inputs, weight table *and* clock reading; the clock affects the result
only through `urgency_score` and `novelty_score` — two clock readings
under which those two features agree yield the same score. -/
theorem steal_score_deterministic (now now2 : DateTime) (o : Offer)
    (p : Option UserPrefs) (w : Weights)
    (hu : urgency_score now o = urgency_score now2 o)
    (hn : novelty_score now o = novelty_score now2 o) :
    steal_score now o p w = steal_score now2 o p w := by
  unfold steal_score featureValues
  rw [hu, hn]

/-- Witness for C4 (amended) at two distinct clock readings (0 and
3600 seconds) that agree on the urgency and novelty buckets of
`lateOffer`. -/
theorem steal_score_deterministic_witness :
    (0 : DateTime) ≠ 3600 ∧
    steal_score 0 lateOffer none DEFAULT_WEIGHTS =
      steal_score 3600 lateOffer none DEFAULT_WEIGHTS := by
  have hd0 : Int.fdiv ((2599200 : Int) - 0) 86400 = 30 := by decide
  have hd1 : Int.fdiv ((2599200 : Int) - 3600) 86400 = 30 := by decide
  have hu : urgency_score 0 lateOffer = urgency_score 3600 lateOffer := by
    unfold urgency_score
    simp only [lateOffer, hd0, hd1]
  have hn : novelty_score 0 lateOffer = novelty_score 3600 lateOffer := by
    unfold novelty_score
    simp only [lateOffer]
    norm_num [clamp]
  exact ⟨by decide, steal_score_deterministic 0 3600 lateOffer none
    DEFAULT_WEIGHTS hu hn⟩

/-! ## C1: the combiner is the matching cross product -/

theorem combine_inner (f : Offer) (hs : List Offer) :
    (hs.flatMap fun hotel =>
      if matchesPair f hotel then [mkCombined f hotel] else []) =
    (((hs.map fun h => (f, h)).filter fun p =>
        p.1.location = p.2.location ∧ dateOf p.1.date = dateOf p.2.date).map
      fun p =>
        { id := p.1.id ++ "-" ++ p.2.id,
          price_per_person := p.1.price_per_person + p.2.price_per_person,
          avg_price := p.1.avg_price + p.2.avg_price,
          hotel_rating := p.2.hotel_rating,
          stars := p.2.stars,
          distance_from_beach := p.2.distance_from_beach,
          direct := p.1.direct,
          total_duration := p.1.total_duration,
          date := p.1.date,
          location := p.1.location,
          attraction_score := max p.1.attraction_score p.2.attraction_score,
          visible_from := max p.1.visible_from p.2.visible_from }) := by
  induction hs with
  | nil => rfl
  | cons h hs ih =>
    simp only [List.flatMap_cons, List.map_cons, List.filter_cons]
    by_cases hm : matchesPair f h
    · rw [if_pos hm]
      have hd : decide (f.location = h.location ∧
          dateOf f.date = dateOf h.date) = true :=
        decide_eq_true_iff.mpr hm
      simp only [hd, if_true, List.map_cons, List.singleton_append]
      rw [ih]
      rfl
    · rw [if_neg hm]
      have hd : decide (f.location = h.location ∧
          dateOf f.date = dateOf h.date) = false := by
        rw [decide_eq_false_iff_not]
        exact hm
      simp only [hd, if_false, List.nil_append]
      exact ih

/-- C1: `_combine_offers` produces exactly one combined offer per
matching ordered `(flight, hotel)` pair — the cross product restricted
to pairs agreeing on location and calendar date, with the combined
fields the spec lists (id concatenation, price sums, hotel attributes
from the hotel, flight attributes and date/location from the flight,
max of attraction scores, and the later of the visibility times) — and
none for a non-matching pair. -/
theorem combine_offers_eq_spec (flights hotels : List Offer) :
    combine_offers flights hotels = combineSpec flights hotels := by
  unfold combine_offers combineSpec
  induction flights with
  | nil => rfl
  | cons f fs ih =>
    simp only [List.flatMap_cons, List.filter_append, List.map_append]
    rw [combine_inner, ih]

/-! ## C5: upsert idempotence -/

theorem upsert_offer_apply (s : Store) (o : Offer) (c : ℚ) (key : String) :
    upsert_offer s o c key =
      if key = o.id then some (recordOf o c) else s key := by
  unfold upsert_offer
  cases s o.id <;> rfl

theorem upsertAll_apply (batch : List (Offer × ℚ)) (s : Store) (key : String) :
    upsertAll s batch key =
      match writeOf batch key with
      | some r => some r
      | none => s key := by
  induction batch generalizing s with
  | nil => rfl
  | cons p b ih =>
    show upsertAll (upsert_offer s p.1 p.2) b key = _
    rw [ih]
    cases hw : writeOf b key with
    | some r => simp only [writeOf, hw]
    | none =>
      simp only [writeOf, hw, upsert_offer_apply]
      by_cases hk : key = p.1.id
      · simp only [hk, if_true, if_pos rfl]
      · simp only [if_neg hk]

/-- C5: one pipeline pass of `_upsert_offer` calls over a batch of
scored offers is idempotent — replaying the same batch over the
resulting store leaves every persisted record unchanged
(`upsert(upsert(O)) == upsert(O)`), where each upsert inserts a new
record when the id is absent and otherwise overwrites all fields and
the score in place. -/
theorem upsert_idempotent (store : Store) (batch : List (Offer × ℚ)) :
    upsertAll (upsertAll store batch) batch = upsertAll store batch := by
  funext key
  rw [upsertAll_apply, upsertAll_apply]
  cases hw : writeOf batch key with
  | some r => rfl
  | none => rfl

/-! ## C6: weight loading precedence and merge -/

theorem updateWeights_not_mem (w : Weights) (kvs : List (String × ℚ))
    (n : String) (h : n ∉ kvs.map Prod.fst) : updateWeights w kvs n = w n := by
  induction kvs generalizing w with
  | nil => rfl
  | cons p kvs ih =>
    simp only [List.map_cons, List.mem_cons] at h
    push_neg at h
    show updateWeights (fun m => if m = p.1 then some p.2 else w m) kvs n = w n
    rw [ih _ h.2]
    simp only [if_neg h.1]

/-- C6: `_load_weights` follows the precedence inline JSON → JSON file
→ defaults; a malformed source behaves exactly like an absent one
(silent fall-through); a well-formed source merges into the default
table, so every feature not named in the override keeps its default
weight. -/
theorem load_weights_precedence (file : WeightsSource)
    (kvs : List (String × ℚ)) (n : String) :
    load_weights .malformed file = load_weights .absent file ∧
    (∀ kvs2, load_weights (.wellFormed kvs2) file =
      updateWeights DEFAULT_WEIGHTS kvs2) ∧
    load_weights .absent (.wellFormed kvs) = updateWeights DEFAULT_WEIGHTS kvs ∧
    load_weights .absent .malformed = DEFAULT_WEIGHTS ∧
    load_weights .malformed .malformed = DEFAULT_WEIGHTS ∧
    load_weights .absent .absent = DEFAULT_WEIGHTS ∧
    (n ∉ kvs.map Prod.fst →
      updateWeights DEFAULT_WEIGHTS kvs n = DEFAULT_WEIGHTS n) := by
  refine ⟨?_, fun kvs2 => rfl, rfl, rfl, rfl, rfl,
    updateWeights_not_mem DEFAULT_WEIGHTS kvs n⟩
  cases file <;> rfl

/-- Witness for C6: an inline override of `discount_pct` alone leaves
`flight_comfort` at its default weight, with the file source
malformed. -/
theorem load_weights_witness :
    updateWeights DEFAULT_WEIGHTS [("discount_pct", 2)] "flight_comfort" =
      DEFAULT_WEIGHTS "flight_comfort" :=
  (load_weights_precedence .malformed [("discount_pct", 2)]
    "flight_comfort").2.2.2.2.2.2 (by decide)

/-! ## C9: which destination pairs are processed -/

theorem processedPairs_nil_left (hd : List String) :
    processedPairs [] hd = [] := by
  induction hd with
  | nil => rfl
  | cons b bs ih =>
    unfold processedPairs zipLongest
    simp only [List.map_cons, List.filterMap_cons, pairTaken]
    exact ih

theorem processedPairs_nil_right (fd : List String) :
    processedPairs fd [] = [] := by
  induction fd with
  | nil => rfl
  | cons a as ih =>
    unfold processedPairs zipLongest
    simp only [List.filterMap_cons, pairTaken]
    exact ih

/-- C9 counterexample: with 2 flight destinations and 1 hotel
destination, but the first flight destination the empty string (a
falsy value in Python), the loop guard skips the complete positional
pair as well: the orchestrator processes 0 pairs although 1 complete
positional pair exists. -/
theorem mismatched_pairs_counterexample :
    processedPairs ["", "LON"] ["paris1"] = [] ∧
    (["", "LON"].zip ["paris1"]).length = 1 ∧
    processedPairs ["", "LON"] ["paris1"] ≠ ["", "LON"].zip ["paris1"] := by
  refine ⟨by decide, by decide, by decide⟩

/-- C9 (amended): when every destination string is non-empty, the
orchestrator processes exactly the complete positional pairs — the
positional zip of the two lists — and skips each incomplete pair,
never raising; pairs containing an empty (falsy) destination string
are also skipped. -/
theorem processedPairs_complete (fd hd : List String)
    (h1 : ∀ s, s ∈ fd → s ≠ "") (h2 : ∀ s, s ∈ hd → s ≠ "") :
    processedPairs fd hd = fd.zip hd := by
  induction fd generalizing hd with
  | nil => simp [processedPairs_nil_left]
  | cons a as ih =>
    cases hd with
    | nil => simpa using processedPairs_nil_right (a :: as)
    | cons b bs =>
      have ha : a ≠ "" := h1 a (by simp)
      have hb : b ≠ "" := h2 b (by simp)
      unfold processedPairs zipLongest
      simp only [List.filterMap_cons, pairTaken]
      rw [if_pos ⟨ha, hb⟩]
      rw [List.zip_cons_cons]
      exact congrArg _ (ih bs (fun s hs => h1 s (List.mem_cons_of_mem _ hs))
        (fun s hs => h2 s (List.mem_cons_of_mem _ hs)))

/-- Witness for C9 (amended): 2 non-empty flight destinations and 1
non-empty hotel destination yield exactly the 1 complete pair. -/
theorem processedPairs_complete_witness :
    processedPairs ["PAR", "LON"] ["paris1"] = [("PAR", "paris1")] :=
  (processedPairs_complete ["PAR", "LON"] ["paris1"]
    (by decide) (by decide)).trans (by decide)

/-! ## C8: a fetch failure aborts the whole run -/

theorem error_bind {α β : Type} {e : String} {k : α → Except String β} :
    ((Except.error e : Except String α) >>= k) = Except.error e := rfl

theorem ok_bind {α β : Type} {a : α} {k : α → Except String β} :
    ((Except.ok a : Except String α) >>= k) = k a := rfl

theorem run_pipeline_eq_processed (fF : Fetcher) (fH : Option Fetcher)
    (fd hd dates : List String) (now : DateTime) (w : Weights) (store : Store) :
    run_pipeline fF fH fd hd dates now w store =
      (processedPairs fd hd).foldlM
        (fun st ac => processPair fF fH dates now w st ac.1 ac.2) store := by
  unfold run_pipeline processedPairs
  generalize zipLongest fd hd = l
  induction l generalizing store with
  | nil => rfl
  | cons pr l ih =>
    cases hp : pairTaken pr with
    | some ac =>
      simp only [List.foldlM_cons, List.filterMap_cons, hp]
      cases hres : processPair fF fH dates now w store ac.1 ac.2 with
      | error e => rw [error_bind, error_bind]
      | ok st2 => rw [ok_bind, ok_bind]; exact ih st2
    | none =>
      simp only [List.foldlM_cons, List.filterMap_cons, hp, pure_bind]
      exact ih store

/-- C8 counterexample: with two complete destination pairs, a flight
fetch failure on the *first* pair makes the whole `run_pipeline` call
raise (`Except.error`): the second pair is never processed; nothing is
committed — contradicting the claim that the failing pair merely
yields no offers while subsequent pairs are still processed and
persisted.  The first conjunct shows the Amadeus retry loop does raise
once its three attempts fail. -/
theorem fetch_failure_aborts :
    amadeusFetch (fun _ => .error "boom") =
      .error "Failed to fetch data from Amadeus API" ∧
    run_pipeline failAAAFetcher none ["AAA", "BBB"] ["h1", "h2"]
      ["2024-01-01"] 1000 DEFAULT_WEIGHTS (fun _ => none) =
      .error "Failed to fetch data from Amadeus API" := by
  exact ⟨rfl, rfl⟩

/-- C8 (amended): a fetch failure is not contained: whenever the
flight fetch for the first processed destination pair and the first
date raises, `run_pipeline` propagates that exception and the whole
run aborts with it (remaining pairs unprocessed, nothing committed);
run-level resilience is left to the scheduler, which retries whole-run
failures. -/
theorem run_pipeline_abort (fF : Fetcher) (fH : Option Fetcher)
    (fd hd : List String) (d : String) (ds : List String) (now : DateTime)
    (w : Weights) (store : Store) (a c : String)
    (rest : List (String × String)) (e : String)
    (hp : processedPairs fd hd = (a, c) :: rest)
    (hf : fF a d = .error e) :
    run_pipeline fF fH fd hd (d :: ds) now w store = .error e := by
  rw [run_pipeline_eq_processed, hp]
  have hpp : processPair fF fH (d :: ds) now w store a c = .error e := by
    unfold processPair
    simp only [List.foldlM_cons]
    show (fF a d >>= _) >>= _ = Except.error e
    rw [hf, error_bind, error_bind]
  simp only [List.foldlM_cons, hpp, error_bind]

/-- Witness for C8 (amended) at a concrete failing fetcher and two
complete destination pairs, hotels enabled. -/
theorem run_pipeline_abort_witness :
    failAAAFetcher "AAA" "2024-01-01" =
      .error "Failed to fetch data from Amadeus API" ∧
    run_pipeline failAAAFetcher (some failAAAFetcher) ["AAA", "BBB"]
      ["h1", "h2"] ["2024-01-01"] 1000 DEFAULT_WEIGHTS (fun _ => none) =
      .error "Failed to fetch data from Amadeus API" :=
  ⟨rfl,
   run_pipeline_abort failAAAFetcher (some failAAAFetcher) ["AAA", "BBB"]
     ["h1", "h2"] "2024-01-01" [] 1000 DEFAULT_WEIGHTS (fun _ => none)
     "AAA" "h1" [("BBB", "h2")] "Failed to fetch data from Amadeus API"
     (by decide) rfl⟩

end TripSniper
